import Mathlib

/-
  Verification of the name-resolution and request-orchestration layer of the
  todoist-semantic-mcp-server repository.

  The Python sources are shallowly embedded as executable Lean definitions:
  pure string logic (filter composition, name lookup) becomes Lean functions;
  each tool handler becomes a function from an oracle of remote-call responses
  and its parsed arguments to the ordered trace of Client Facade calls it makes
  together with its outcome (a returned record or a raised exception, modelled
  with Except).  Python truthiness of optional strings and integers is modelled
  explicitly (None and the empty string are falsy, None and 0 are falsy).
-/

namespace TodoistMCP

/-! ## Python value helpers -/

/-- Truthiness of an optional Python string: None and the empty string are falsy. -/
def pyTruthyS : Option String → Bool
  | none => false
  | some s => s != ""

/-- Truthiness of an optional Python integer: None and 0 are falsy. -/
def pyTruthyN : Option Nat → Bool
  | none => false
  | some n => n != 0

theorem pyTruthyS_some {s : String} (h : s ≠ "") : pyTruthyS (some s) = true := by
  simp [pyTruthyS, h]

theorem pyTruthyS_none : pyTruthyS none = false := rfl

/-- Whether the first list is an initial segment of the second (character lists). -/
def startsWithL : List Char → List Char → Bool
  | [], _ => true
  | _ :: _, [] => false
  | a :: as, b :: bs => a == b && startsWithL as bs

/-- Whether the first list occurs as a contiguous sublist of the second; this is
the model of the Python substring test used by the client error handlers. -/
def hasSubL (n : List Char) : List Char → Bool
  | [] => startsWithL n []
  | c :: rest => startsWithL n (c :: rest) || hasSubL n rest

/-- Python substring membership: needle occurs somewhere inside hay. -/
def strContains (hay needle : String) : Bool :=
  hasSubL needle.data hay.data

theorem startsWithL_refl (l : List Char) : startsWithL l l = true := by
  induction l with
  | nil => rfl
  | cons a as ih => simp [startsWithL, ih]

theorem hasSubL_self (l : List Char) : hasSubL l l = true := by
  cases l with
  | nil => rfl
  | cons a as => simp [hasSubL, startsWithL_refl]

theorem hasSubL_append_left (l₁ l₂ n : List Char) (h : hasSubL n l₂ = true) :
    hasSubL n (l₁ ++ l₂) = true := by
  induction l₁ with
  | nil => simpa using h
  | cons c t ih => simp [hasSubL, ih]

theorem strContains_append_self (p s : String) : strContains (p ++ s) s = true := by
  show hasSubL s.data (p ++ s).data = true
  have hd : (p ++ s).data = p.data ++ s.data := rfl
  rw [hd]
  exact hasSubL_append_left _ _ _ (hasSubL_self s.data)

/-! ## Error taxonomy (utils/error_handling.py lines 16-38)

`MCPError` is the generic base carrying a message and optional details; the
only structured detail ever attached by this repository is the name of the
failing function, so details are modelled as an optional function name.
`TodoistError` is the taxonomy member the specification calls ServiceError.
`valueError` and `keyError` model the Python builtin exceptions that are not
part of the taxonomy. -/

inductive PyExc where
  | validationError (msg : String)
  | authenticationError (msg : String)
  | todoistError (msg : String) (details : Option String)
  | mcpError (msg : String) (details : Option String)
  | valueError (msg : String)
  | keyError (key : String)
  deriving DecidableEq, Repr

/-- Whether the exception is an instance of the MCPError base class. -/
def PyExc.isMCPErr : PyExc → Bool
  | .validationError _ => true
  | .authenticationError _ => true
  | .todoistError _ _ => true
  | .mcpError _ _ => true
  | _ => false

/-- Whether the exception is a ValidationError. -/
def PyExc.isValidationErr : PyExc → Bool
  | .validationError _ => true
  | _ => false

/-- The Python display text of the exception.  For KeyError, CPython renders
the repr of the key (with quotes); the quotes are immaterial to every claim
and are omitted here. -/
def PyExc.pyStr : PyExc → String
  | .validationError m => m
  | .authenticationError m => m
  | .todoistError m _ => m
  | .mcpError m _ => m
  | .valueError m => m
  | .keyError k => k

/-! ## Filter composer (tools/tasks.py lines 381-399)

The handler mutates one local variable filter_string through three sequential
if-blocks: due-today, then due-upcoming, then priority.  Each block, when its
flag is active, wraps the accumulator (when truthy) in parentheses and ANDs
the new clause onto it. -/

/-- Due-today step (tasks.py 382-386). -/
def todayClause (dueToday : Bool) (fs : Option String) : Option String :=
  if dueToday then
    some (if pyTruthyS fs then "(" ++ fs.getD "" ++ ") & today" else "today")
  else fs

/-- Due-upcoming step (tasks.py 388-392). -/
def upcomingClause (dueUpcoming : Bool) (fs : Option String) : Option String :=
  if dueUpcoming then
    some (if pyTruthyS fs then "(" ++ fs.getD "" ++ ") & (today | overdue | 7 days)"
          else "today | overdue | 7 days")
  else fs

/-- Priority step (tasks.py 394-399). -/
def priorityClause (priority : Option Nat) (fs : Option String) : Option String :=
  if pyTruthyN priority then
    let pf := "p" ++ toString (priority.getD 0)
    some (if pyTruthyS fs then "(" ++ fs.getD "" ++ ") & " ++ pf else pf)
  else fs

/-- The complete filter composition of handle_list_tasks: base string first,
then due-today, then due-upcoming, then priority, exactly in source order. -/
def composeFilter (base : Option String) (dueToday dueUpcoming : Bool)
    (priority : Option Nat) : Option String :=
  priorityClause priority (upcomingClause dueUpcoming (todayClause dueToday base))

/-! ## Entities and the reference resolver -/

/-- A task record as surfaced by the handlers (identifier and content are the
fields the claims inspect; the remaining fields are presentation only). -/
structure TaskRec where
  id : String
  content : String
  deriving DecidableEq, Repr

/-- A named entity (project or label) as returned by the list calls used for
name resolution. -/
structure Entity where
  id : String
  name : String
  deriving DecidableEq, Repr

/-- Lower-casing of one character, the ASCII case of Python str.lower; every
name occurring in the claims is ASCII. -/
def lowerChar (c : Char) : Char :=
  if 65 ≤ c.toNat ∧ c.toNat ≤ 90 then Char.ofNat (c.toNat + 32) else c

/-- The model of the Python lower() call on a string. -/
def strLower (s : String) : String :=
  ⟨s.data.map lowerChar⟩

/-- The inline first-match loop shared verbatim by every orchestrator that
resolves a name (for example tasks.py 363-366, labels.py 328-331): scan the
collection in order and take the identifier of the first entity whose name
matches case-insensitively; the loop breaks at the first hit. -/
def lookupId (target : String) : List Entity → Option String
  | [] => none
  | e :: rest =>
      if strLower e.name == strLower target then some e.id else lookupId target rest

theorem lookupId_eq_find (target : String) (C : List Entity) :
    lookupId target C
      = (C.find? (fun e => strLower e.name == strLower target)).map (fun e => e.id) := by
  induction C with
  | nil => rfl
  | cons e rest ih =>
      by_cases h : (strLower e.name == strLower target) = true
      · simp [lookupId, List.find?, h]
      · simp only [Bool.not_eq_true] at h
        simp [lookupId, List.find?, h, ih]

theorem lookupId_mem {target i : String} {C : List Entity}
    (h : lookupId target C = some i) : ∃ e, e ∈ C ∧ e.id = i := by
  induction C with
  | nil => simp [lookupId] at h
  | cons e rest ih =>
      by_cases hm : (strLower e.name == strLower target) = true
      · simp only [lookupId, hm, if_true, Option.some.injEq] at h
        exact ⟨e, by simp, h⟩
      · simp only [Bool.not_eq_true] at hm
        simp only [lookupId, hm, Bool.false_eq_true, if_false] at h
        obtain ⟨e', he', hid⟩ := ih h
        exact ⟨e', by simp [he'], hid⟩

/-! ## Client Facade call traces

Each handler is embedded as a function returning the ordered list of Client
Facade calls it issues (with the arguments that matter to the claims) paired
with its outcome.  Remote responses are supplied by an oracle; get_task is
indexed by the number of get_task calls the handler has already made, so a
pre-mutation fetch and a post-mutation fetch can answer differently. -/

inductive CallTag where
  | getTasks (projectId sectionId labelId filterString : Option String)
  | getTask (taskId : String)
  | getProjects
  | getLabels
  | getLabel (labelId : String)
  | createTask (content : String) (projectId : Option String)
  | updateTask (taskId : String) (projectId : Option String)
  | closeTask (taskId : String)
  | deleteTask (taskId : String)
  | createLabel (name : String) (color : Option String) (favorite : Bool)
  | updateLabel (labelId : String)
  | deleteLabel (labelId : String)
  deriving DecidableEq, Repr

/-- Whether a trace element is a get_task read. -/
def CallTag.isGetTask : CallTag → Bool
  | .getTask _ => true
  | _ => false

/-- Oracle of remote responses, one per Client Facade method the handlers use.
Responses model the facade output: either a value or a raised exception. -/
structure Client where
  getTasksR : Except PyExc (List TaskRec) := .ok []
  getTaskR : Nat → Except PyExc TaskRec := fun _ => .ok { id := "", content := "" }
  getProjectsR : Except PyExc (List Entity) := .ok []
  getLabelsR : Except PyExc (List Entity) := .ok []
  getLabelR : Except PyExc Entity := .ok { id := "", name := "" }
  createTaskR : Except PyExc TaskRec := .ok { id := "", content := "" }
  updateTaskR : Except PyExc Bool := .ok true
  closeTaskR : Except PyExc Bool := .ok true
  deleteTaskR : Except PyExc Bool := .ok true
  createLabelR : Except PyExc Entity := .ok { id := "", name := "" }
  updateLabelR : Except PyExc Bool := .ok true
  deleteLabelR : Except PyExc Bool := .ok true

/-! ## Parsed tool arguments

Option fields model presence of a key in the Python argument dict: none means
the key is absent, some s means it is present with that value. -/

structure ListTasksArgs where
  project_id : Option String := none
  project_name : Option String := none
  section_id : Option String := none
  label_id : Option String := none
  label_name : Option String := none
  filter_string : Option String := none
  due_today : Bool := false
  due_upcoming : Bool := false
  priority : Option Nat := none
  limit : Option Nat := none

structure CreateTaskArgs where
  content : String
  project_id : Option String := none
  project_name : Option String := none

structure UpdateTaskArgs where
  task_id : Option String := none
  project_id : Option String := none
  project_name : Option String := none

structure TaskIdArgs where
  task_id : Option String := none

structure CreateLabelArgs where
  name : String
  color : Option String := none
  favorite : Option Bool := none

structure LabelRefArgs where
  label_id : Option String := none
  label_name : Option String := none

/-! ## Task handlers (tools/tasks.py) -/

/-- handle_list_tasks (tasks.py 334-468), up to the records it renders.
Project resolution (360-368): when project_name is truthy and project_id is
falsy, fetch all projects, run the first-match loop, and fail with
ValidationError when the resulting project_id variable is still falsy.
Label resolution (371-379) is identical over labels.  The composed filter
(381-399) is passed to the single get_tasks call, whose result is truncated
client-side only when the limit argument is truthy (410-411). -/
def handleListTasks (c : Client) (a : ListTasksArgs) :
    List CallTag × Except PyExc (List TaskRec) :=
  let projStep : List CallTag × Except PyExc (Option String) :=
    if pyTruthyS a.project_name && !(pyTruthyS a.project_id) then
      match c.getProjectsR with
      | .error e => ([.getProjects], .error e)
      | .ok ps =>
          let pid := match lookupId (a.project_name.getD "") ps with
                     | some i => some i
                     | none => a.project_id
          if pyTruthyS pid then ([.getProjects], .ok pid)
          else ([.getProjects],
                .error (.validationError ("Project not found: " ++ a.project_name.getD "")))
    else ([], .ok a.project_id)
  match projStep with
  | (tr1, .error e) => (tr1, .error e)
  | (tr1, .ok pid) =>
    let labelStep : List CallTag × Except PyExc (Option String) :=
      if pyTruthyS a.label_name && !(pyTruthyS a.label_id) then
        match c.getLabelsR with
        | .error e => ([.getLabels], .error e)
        | .ok ls =>
            let lid := match lookupId (a.label_name.getD "") ls with
                       | some i => some i
                       | none => a.label_id
            if pyTruthyS lid then ([.getLabels], .ok lid)
            else ([.getLabels],
                  .error (.validationError ("Label not found: " ++ a.label_name.getD "")))
      else ([], .ok a.label_id)
    match labelStep with
    | (tr2, .error e) => (tr1 ++ tr2, .error e)
    | (tr2, .ok lid) =>
      let fs := composeFilter a.filter_string a.due_today a.due_upcoming a.priority
      let tr := tr1 ++ tr2 ++ [CallTag.getTasks pid a.section_id lid fs]
      match c.getTasksR with
      | .error e => (tr, .error e)
      | .ok tasks =>
          let tasks := match a.limit with
            | some l => if l ≠ 0 ∧ l < tasks.length then tasks.take l else tasks
            | none => tasks
          (tr, .ok tasks)

/-- handle_create_task (tasks.py 472-559), up to the record it renders.
Project resolution (492-501) mirrors handle_list_tasks; the record surfaced
to the caller is exactly the response of the create_task call (504-518) and
no further Client Facade read is performed. -/
def handleCreateTask (c : Client) (a : CreateTaskArgs) :
    List CallTag × Except PyExc TaskRec :=
  let projStep : List CallTag × Except PyExc (Option String) :=
    if pyTruthyS a.project_name && !(pyTruthyS a.project_id) then
      match c.getProjectsR with
      | .error e => ([.getProjects], .error e)
      | .ok ps =>
          let pid := match lookupId (a.project_name.getD "") ps with
                     | some i => some i
                     | none => a.project_id
          if pyTruthyS pid then ([.getProjects], .ok pid)
          else ([.getProjects],
                .error (.validationError ("Project not found: " ++ a.project_name.getD "")))
    else ([], .ok a.project_id)
  match projStep with
  | (tr1, .error e) => (tr1, .error e)
  | (tr1, .ok pid) =>
      let tr := tr1 ++ [CallTag.createTask a.content pid]
      match c.createTaskR with
      | .error e => (tr, .error e)
      | .ok t => (tr, .ok t)

/-- handle_update_task (tasks.py 563-651), up to the record it renders.
Line 580 pops task_id with no default, so an absent key raises KeyError; a
present falsy value raises ValidationError (581-582).  The pre-update fetch
(585) precedes everything else.  Project-name resolution (588-598) stores the
matched identifier back into the argument dict and afterwards checks key
presence, not truthiness.  A falsy update success flag raises TodoistError
(603-604); on success the surfaced record is a second get_task (607). -/
def handleUpdateTask (c : Client) (a : UpdateTaskArgs) :
    List CallTag × Except PyExc TaskRec :=
  match a.task_id with
  | none => ([], .error (.keyError "task_id"))
  | some tid =>
    if tid = "" then ([], .error (.validationError "Task ID is required"))
    else
      match c.getTaskR 0 with
      | .error e => ([.getTask tid], .error e)
      | .ok _ =>
        let projStep : List CallTag × Except PyExc (Option String) :=
          if pyTruthyS a.project_name && !(pyTruthyS a.project_id) then
            match c.getProjectsR with
            | .error e => ([.getProjects], .error e)
            | .ok ps =>
                let pid := match lookupId (a.project_name.getD "") ps with
                           | some i => some i
                           | none => a.project_id
                if pid = none then
                  ([.getProjects],
                   .error (.validationError ("Project not found: " ++ a.project_name.getD "")))
                else ([.getProjects], .ok pid)
          else ([], .ok a.project_id)
        match projStep with
        | (tr1, .error e) => ([CallTag.getTask tid] ++ tr1, .error e)
        | (tr1, .ok pid) =>
          let tr := [CallTag.getTask tid] ++ tr1 ++ [CallTag.updateTask tid pid]
          match c.updateTaskR with
          | .error e => (tr, .error e)
          | .ok false => (tr, .error (.todoistError "Failed to update task" none))
          | .ok true =>
              match c.getTaskR 1 with
              | .error e => (tr ++ [.getTask tid], .error e)
              | .ok t => (tr ++ [.getTask tid], .ok t)

/-- handle_complete_task (tasks.py 655-696): a missing or falsy task_id raises
ValidationError (672-674); the pre-completion fetch (677-681) is best effort
and its failure is swallowed; a falsy success flag raises TodoistError. -/
def handleCompleteTask (c : Client) (a : TaskIdArgs) :
    List CallTag × Except PyExc String :=
  if pyTruthyS a.task_id then
    let tid := a.task_id.getD ""
    let tr := [CallTag.getTask tid, CallTag.closeTask tid]
    match c.closeTaskR with
    | .error e => (tr, .error e)
    | .ok false => (tr, .error (.todoistError "Failed to complete task" none))
    | .ok true => (tr, .ok tid)
  else ([], .error (.validationError "Task ID is required"))

/-- handle_delete_task (tasks.py 700-741): same shape as handle_complete_task
with the delete verb. -/
def handleDeleteTask (c : Client) (a : TaskIdArgs) :
    List CallTag × Except PyExc String :=
  if pyTruthyS a.task_id then
    let tid := a.task_id.getD ""
    let tr := [CallTag.getTask tid, CallTag.deleteTask tid]
    match c.deleteTaskR with
    | .error e => (tr, .error e)
    | .ok false => (tr, .error (.todoistError "Failed to delete task" none))
    | .ok true => (tr, .ok tid)
  else ([], .error (.validationError "Task ID is required"))

/-! ## Label handlers (tools/labels.py) -/

/-- The favorite default declared by the create-label tool schema
(labels.py line 91). -/
def createLabelSchemaFavoriteDefault : Bool := true

/-- handle_create_label (labels.py 251-297): the favorite argument defaults to
False at line 271 (arguments.get with default False); the create_label call
receives name, color and that favorite flag.  Color validation by the pydantic
model is orthogonal to every claim and not modelled. -/
def handleCreateLabel (c : Client) (a : CreateLabelArgs) :
    List CallTag × Except PyExc Entity :=
  let favorite := a.favorite.getD false
  let tr := [CallTag.createLabel a.name a.color favorite]
  match c.createLabelR with
  | .error e => (tr, .error e)
  | .ok l => (tr, .ok l)

/-- handle_update_label (labels.py 301-366): with both label_id and label_name
falsy it raises ValidationError (321-322); name resolution (325-333) mirrors
the task handlers with a truthiness check on the found identifier; the
original-label fetch (336) is not best effort and its failure propagates; a
falsy success flag raises TodoistError; the surfaced record is a second
get_label (350). -/
def handleUpdateLabel (c : Client) (a : LabelRefArgs) :
    List CallTag × Except PyExc Entity :=
  if !(pyTruthyS a.label_id) && !(pyTruthyS a.label_name) then
    ([], .error (.validationError "Either label_id or label_name is required"))
  else
    let idStep : List CallTag × Except PyExc String :=
      if !(pyTruthyS a.label_id) && pyTruthyS a.label_name then
        match c.getLabelsR with
        | .error e => ([.getLabels], .error e)
        | .ok ls =>
            let lid := match lookupId (a.label_name.getD "") ls with
                       | some i => some i
                       | none => a.label_id
            if pyTruthyS lid then ([.getLabels], .ok (lid.getD ""))
            else ([.getLabels],
                  .error (.validationError ("Label not found: " ++ a.label_name.getD "")))
      else ([], .ok (a.label_id.getD ""))
    match idStep with
    | (tr1, .error e) => (tr1, .error e)
    | (tr1, .ok lid) =>
      match c.getLabelR with
      | .error e => (tr1 ++ [.getLabel lid], .error e)
      | .ok _ =>
        let tr := tr1 ++ [CallTag.getLabel lid, CallTag.updateLabel lid]
        match c.updateLabelR with
        | .error e => (tr, .error e)
        | .ok false => (tr, .error (.todoistError "Failed to update label" none))
        | .ok true =>
            match c.getLabelR with
            | .error e => (tr ++ [.getLabel lid], .error e)
            | .ok l => (tr ++ [.getLabel lid], .ok l)

/-- handle_delete_label (labels.py 369-424): with both label_id and label_name
falsy it raises ValidationError (390-391); resolution mirrors
handle_update_label; the pre-delete fetch (405-409) is best effort and its
failure is swallowed; a falsy success flag raises TodoistError. -/
def handleDeleteLabel (c : Client) (a : LabelRefArgs) :
    List CallTag × Except PyExc String :=
  if !(pyTruthyS a.label_id) && !(pyTruthyS a.label_name) then
    ([], .error (.validationError "Either label_id or label_name is required"))
  else
    let idStep : List CallTag × Except PyExc String :=
      if !(pyTruthyS a.label_id) && pyTruthyS a.label_name then
        match c.getLabelsR with
        | .error e => ([.getLabels], .error e)
        | .ok ls =>
            let lid := match lookupId (a.label_name.getD "") ls with
                       | some i => some i
                       | none => a.label_id
            if pyTruthyS lid then ([.getLabels], .ok (lid.getD ""))
            else ([.getLabels],
                  .error (.validationError ("Label not found: " ++ a.label_name.getD "")))
      else ([], .ok (a.label_id.getD ""))
    match idStep with
    | (tr1, .error e) => (tr1, .error e)
    | (tr1, .ok lid) =>
      let tr := tr1 ++ [CallTag.getLabel lid, CallTag.deleteLabel lid]
      match c.deleteLabelR with
      | .error e => (tr, .error e)
      | .ok false => (tr, .error (.todoistError "Failed to delete label" none))
      | .ok true => (tr, .ok lid)

/-! ## List handlers for projects and labels (limit application only)

handle_list_projects (projects.py 223-226) and handle_list_labels
(labels.py 212-216) read limit from the raw argument dict and truncate only
when it is an integer greater than zero; no default is ever applied. -/

/-- The truncation step of handle_list_projects applied to the fetched
collection (projects.py 224-226). -/
def listProjectsLimit (limit : Option Int) (projects : List Entity) : List Entity :=
  match limit with
  | some l => if 0 < l then projects.take l.toNat else projects
  | none => projects

/-- The truncation step of handle_list_labels applied to the fetched
collection (labels.py 214-216). -/
def listLabelsLimit (limit : Option Int) (labels : List Entity) : List Entity :=
  match limit with
  | some l => if 0 < l then labels.take l.toNat else labels
  | none => labels

/-- The limit default declared by the list-tasks tool schema
(tasks.py line 111). -/
def listTasksSchemaLimitDefault : Nat := 50

/-- The limit default of the parsed argument model TaskFilterMCPInput
(models.py line 246): the field defaults to None, so an unspecified limit
reaches the handler as None and the truncation at tasks.py 410-411 is
skipped. -/
def taskFilterLimitDefault : Option Nat := none

/-! ## The handle_exceptions decorator (utils/error_handling.py 41-87)

The wrapper is a synchronous function: it calls the wrapped function inside a
try block, passes MCPError instances through unchanged, converts ValueError to
ValidationError, and wraps everything else as TodoistError or the generic
MCPError carrying the function name in the details.

Python semantics of applying this synchronous wrapper to an async function:
calling the async function merely constructs its coroutine without executing
the body, so the try block observes no exception; the body runs later, when
the caller awaits, outside the wrapper.  A coroutine is modelled as a thunk
executed at await time. -/

/-- The exception mapping of the except clauses (error_handling.py 60-85). -/
def normalizeExc (fname : String) (e : PyExc) : PyExc :=
  if e.isMCPErr then e
  else
    match e with
    | .valueError m => .validationError m
    | e =>
        let m := e.pyStr
        if strContains (strLower m) "todoist" then
          .todoistError ("Todoist API error: " ++ m) (some fname)
        else
          .mcpError ("An unexpected error occurred: " ++ m) (some fname)

/-- The decorator applied to a synchronous function: the try block surrounds
the whole execution, so every raised exception is normalized. -/
def handleExceptionsSync (fname : String) (f : α → Except PyExc β) :
    α → Except PyExc β :=
  fun a =>
    match f a with
    | .ok b => .ok b
    | .error e => .error (normalizeExc fname e)

/-- A Python coroutine: construction is pure, the body runs at await time. -/
def Coro (β : Type) : Type := Unit → Except PyExc β

/-- The decorator applied to an async function: the try block surrounds only
the coroutine construction, which cannot raise, so the coroutine is returned
unchanged and exceptions raised by its body at await time bypass the except
clauses entirely. -/
def handleExceptionsAsync (_fname : String) (g : α → Coro β) : α → Coro β :=
  fun a => g a

/-- handle_update_task as the async callable that the decorator receives:
awaiting it runs the handler body and surfaces its outcome. -/
def handleUpdateTaskAsync (ca : Client × UpdateTaskArgs) : Coro TaskRec :=
  fun _ => (handleUpdateTask ca.1 ca.2).2

/-! ## Client Facade error mapping (client.py)

Every facade method wraps its remote call in the same except block, for
example get_tasks at client.py 107-112 and get_labels at 614-619: an error
whose text contains the marker Unauthorized becomes AuthenticationError with
a fixed message, anything else becomes TodoistError whose message is the
operation-specific text followed by the original error text.  The per-method
text (such as the get_tasks one) is the opMsg parameter. -/

/-- The except-block mapping shared by every Client Facade method. -/
def clientFacadeFail (opMsg : String) (e : String) : PyExc :=
  if strContains e "Unauthorized" then
    .authenticationError "Invalid or expired Todoist API token"
  else
    .todoistError (opMsg ++ e) none

/-! ## Claims -/

/-- C1, counterexample.  The spec gives the composed filter for
compose(None, true, true, 3) as the literal string with an outer pair of
parentheses around the whole expression; the handler builds
((today) & (today | overdue | 7 days)) & p3 and never wraps the final
accumulator, so the two strings differ. -/
theorem filter_composition_spec_string_cex :
    composeFilter none true true (some 3)
      ≠ some "(((today) & (today | overdue | 7 days)) & p3)" := by decide

/-- C1, amended.  With no base filter, due_today = true, due_upcoming = true
and priority = 3 the composed filter is exactly
((today) & (today | overdue | 7 days)) & p3; with no base filter and no
active clause the composition returns None; the clauses are applied in the
fixed order base string, due-today, due-upcoming, priority; and that composed
string is what the handler passes to the remote list call. -/
theorem filter_composition_c1 :
    composeFilter none true true (some 3)
      = some "((today) & (today | overdue | 7 days)) & p3"
    ∧ composeFilter none false false none = none
    ∧ (∀ base dueToday dueUpcoming priority,
        composeFilter base dueToday dueUpcoming priority
          = priorityClause priority (upcomingClause dueUpcoming (todayClause dueToday base)))
    ∧ (handleListTasks {} { due_today := true, due_upcoming := true, priority := some 3 }).1
      = [CallTag.getTasks none none none
          (some "((today) & (today | overdue | 7 days)) & p3")] :=
  ⟨by decide, rfl, fun _ _ _ _ => rfl, rfl⟩

/-- Concrete collection of 101 available tasks for C2. -/
def c2Tasks : List TaskRec :=
  (List.range 101).map fun i => { id := toString i, content := "t" }

/-- Oracle for C2: the remote list call returns 101 tasks. -/
def c2Client : Client := { getTasksR := .ok c2Tasks }

/-- C2.  When the limit argument is unspecified the parsed model leaves it
None (models.py 246), the truncation at tasks.py 410-411 is skipped, and all
101 available records are surfaced, exceeding the bound of 100 the claim
derives from the declared schema default of 50 (tasks.py 111), which is never
applied by the handler. -/
theorem list_limit_default_c2 :
    (handleListTasks c2Client {}).2 = .ok c2Tasks
    ∧ c2Tasks.length = 101
    ∧ taskFilterLimitDefault = none
    ∧ listTasksSchemaLimitDefault = 50 :=
  ⟨rfl, by simp [c2Tasks], rfl, rfl⟩

/-- Oracle for the C3 counterexample: the create call answers with record A
while any get_task read would answer with the different record B. -/
def c3cexClient : Client :=
  { createTaskR := .ok { id := "9", content := "A" },
    getTaskR := fun _ => .ok { id := "9", content := "B" } }

/-- C3, counterexample.  A successful create-task invocation issues no
get_task read at all: its trace is the single create call, and the record it
surfaces is the create call response A rather than the record B a fresh
post-mutation read would have returned. -/
theorem mutation_refetch_create_cex :
    (handleCreateTask c3cexClient { content := "Buy milk" }).1
      = [CallTag.createTask "Buy milk" none]
    ∧ ((handleCreateTask c3cexClient { content := "Buy milk" }).1.all
        fun t => !t.isGetTask) = true
    ∧ (handleCreateTask c3cexClient { content := "Buy milk" }).2
      = .ok { id := "9", content := "A" }
    ∧ c3cexClient.getTaskR 0 = .ok { id := "9", content := "B" }
    ∧ ({ id := "9", content := "A" } : TaskRec) ≠ { id := "9", content := "B" } :=
  ⟨rfl, rfl, rfl, rfl, by decide⟩

/-- C3, amended.  A successful update-task invocation surfaces the record
returned by a second get_task read performed after the update mutation (the
fresh post-mutation fetch), whereas a successful create-task invocation
surfaces the record returned by the create call itself and performs no
post-mutation read. -/
theorem mutation_refetch_c3 (c : Client) (ua : UpdateTaskArgs) (tid : String)
    (t0 t2 t : TaskRec) (ca : CreateTaskArgs)
    (h1 : ua.task_id = some tid) (h2 : tid ≠ "") (h3 : ua.project_name = none)
    (h4 : c.getTaskR 0 = .ok t0) (h5 : c.updateTaskR = .ok true)
    (h6 : c.getTaskR 1 = .ok t2)
    (h7 : ca.project_name = none) (h8 : c.createTaskR = .ok t) :
    handleUpdateTask c ua
      = ([.getTask tid, .updateTask tid ua.project_id, .getTask tid], .ok t2)
    ∧ handleCreateTask c ca = ([.createTask ca.content ca.project_id], .ok t) := by
  constructor
  · simp [handleUpdateTask, h1, h2, h3, h4, h5, h6, pyTruthyS_none]
  · simp [handleCreateTask, h7, h8, pyTruthyS_none]

/-- Oracle for the C3 witness: the pre-update read answers the stale record,
the post-update read answers the fresh record. -/
def c3wClient : Client :=
  { getTaskR := fun i =>
      if i = 0 then .ok { id := "1", content := "old" }
      else .ok { id := "1", content := "new" },
    createTaskR := .ok { id := "2", content := "made" } }

/-- C3, witness. -/
theorem mutation_refetch_c3_witness :
    handleUpdateTask c3wClient { task_id := some "1" }
      = ([.getTask "1", .updateTask "1" none, .getTask "1"],
         .ok { id := "1", content := "new" })
    ∧ handleCreateTask c3wClient { content := "Buy milk" }
      = ([.createTask "Buy milk" none], .ok { id := "2", content := "made" }) :=
  mutation_refetch_c3 c3wClient { task_id := some "1" } "1"
    { id := "1", content := "old" } { id := "1", content := "new" }
    { id := "2", content := "made" } { content := "Buy milk" }
    rfl (by decide) rfl rfl rfl rfl rfl rfl

/-- C4.  The shared first-match loop returns the identifier of the first
entity of the collection, in original order, whose name matches the target
case-insensitively; it is deterministic; when no entity matches, the
orchestrators that run it (update-task on project_name, update-label on
label_name, list-tasks on project_name) raise ValidationError naming the
unmatched value; and when a match exists the matched identifier is the one
handed to the remote call. -/
theorem name_resolution_c4 (C : List Entity) (n : String) (c : Client)
    (a : UpdateTaskArgs) (tid : String) (la : LabelRefArgs) (al : ListTasksArgs)
    (h1 : a.task_id = some tid) (h2 : tid ≠ "")
    (h3 : a.project_name = some n) (h4 : n ≠ "") (h5 : a.project_id = none)
    (h6 : ∃ t0, c.getTaskR 0 = .ok t0) (h7 : c.getProjectsR = .ok C)
    (h8 : la.label_id = none) (h9 : la.label_name = some n)
    (h10 : c.getLabelsR = .ok C)
    (h11 : ∀ e ∈ C, e.id ≠ "")
    (h12 : al.project_name = some n) (h13 : al.project_id = none)
    (h14 : al.label_name = none) :
    lookupId n C
      = (C.find? (fun e => strLower e.name == strLower n)).map (fun e => e.id)
    ∧ lookupId n C = lookupId n C
    ∧ (lookupId n C = none →
        (handleUpdateTask c a).2
          = .error (.validationError ("Project not found: " ++ n))
        ∧ (handleUpdateLabel c la).2
          = .error (.validationError ("Label not found: " ++ n))
        ∧ (handleListTasks c al).2
          = .error (.validationError ("Project not found: " ++ n)))
    ∧ (∀ i, lookupId n C = some i →
        CallTag.updateTask tid (some i) ∈ (handleUpdateTask c a).1
        ∧ CallTag.getTasks (some i) al.section_id al.label_id
            (composeFilter al.filter_string al.due_today al.due_upcoming al.priority)
          ∈ (handleListTasks c al).1) := by
  obtain ⟨t0, h6⟩ := h6
  refine ⟨lookupId_eq_find n C, rfl, ?_, ?_⟩
  · intro hnone
    refine ⟨?_, ?_, ?_⟩
    · simp [handleUpdateTask, h1, h2, h3, h5, h6, h7, hnone,
        pyTruthyS_some h4, pyTruthyS_none]
    · simp [handleUpdateLabel, h8, h9, h10, hnone,
        pyTruthyS_some h4, pyTruthyS_none]
    · simp [handleListTasks, h12, h13, h7, hnone,
        pyTruthyS_some h4, pyTruthyS_none]
  · intro i hi
    obtain ⟨e, heC, heid⟩ := lookupId_mem hi
    have hine : i ≠ "" := heid ▸ h11 e heC
    constructor
    · cases hU : c.updateTaskR with
      | error eU =>
          simp [handleUpdateTask, h1, h2, h3, h5, h6, h7, hi, hU,
            pyTruthyS_some h4, pyTruthyS_none]
      | ok b =>
          cases b with
          | false =>
              simp [handleUpdateTask, h1, h2, h3, h5, h6, h7, hi, hU,
                pyTruthyS_some h4, pyTruthyS_none]
          | true =>
              cases hG : c.getTaskR 1 with
              | error eG =>
                  simp [handleUpdateTask, h1, h2, h3, h5, h6, h7, hi, hU, hG,
                    pyTruthyS_some h4, pyTruthyS_none]
              | ok tG =>
                  simp [handleUpdateTask, h1, h2, h3, h5, h6, h7, hi, hU, hG,
                    pyTruthyS_some h4, pyTruthyS_none]
    · cases hT : c.getTasksR with
      | error eT =>
          simp [handleListTasks, h12, h13, h14, h7, hi, hT,
            pyTruthyS_some h4, pyTruthyS_none, pyTruthyS_some hine]
      | ok ts =>
          simp [handleListTasks, h12, h13, h14, h7, hi, hT,
            pyTruthyS_some h4, pyTruthyS_none, pyTruthyS_some hine]

/-- Oracle for the C4 witness. -/
def c4wClient : Client :=
  { getTaskR := fun _ => .ok { id := "1", content := "x" },
    getProjectsR := .ok [{ id := "7", name := "Home" }],
    getLabelsR := .ok [{ id := "7", name := "Home" }] }

/-- C4, witness. -/
theorem name_resolution_c4_witness :
    CallTag.updateTask "1" (some "7")
      ∈ (handleUpdateTask c4wClient
          { task_id := some "1", project_name := some "HOME" }).1 :=
  ((name_resolution_c4 [{ id := "7", name := "Home" }] "HOME" c4wClient
      { task_id := some "1", project_name := some "HOME" } "1"
      { label_name := some "HOME" } { project_name := some "HOME" }
      rfl (by decide) rfl (by decide) rfl ⟨{ id := "1", content := "x" }, rfl⟩ rfl
      rfl rfl rfl (by decide) rfl rfl rfl).2.2.2 "7" (by decide)).1

/-- C5.  The handle_exceptions wrapper is synchronous, so applied to the
async handlers it returns the coroutine unchanged and exceptions raised while
awaiting the body bypass the normalization entirely: update-task invoked
without task_id surfaces the raw KeyError, which is not an MCPError, whereas
the same failure routed through the wrapper with synchronous semantics would
have been wrapped as the generic MCPError carrying the operation name. -/
theorem error_boundary_async_c5 :
    handleExceptionsAsync "handle_update_task" handleUpdateTaskAsync ({}, {}) ()
      = .error (.keyError "task_id")
    ∧ handleExceptionsSync "handle_update_task"
        (fun ca : Client × UpdateTaskArgs => (handleUpdateTask ca.1 ca.2).2) ({}, {})
      = .error (.mcpError "An unexpected error occurred: task_id"
          (some "handle_update_task"))
    ∧ (PyExc.keyError "task_id").isMCPErr = false
    ∧ PyExc.keyError "task_id"
      ≠ PyExc.mcpError "An unexpected error occurred: task_id"
          (some "handle_update_task") :=
  ⟨rfl, rfl, rfl, by decide⟩

/-- C6.  In every Client Facade method, a remote error whose text contains
the marker Unauthorized is surfaced as AuthenticationError (never as the
ServiceError kind TodoistError), regardless of the operation; any other
remote failure is surfaced as TodoistError whose message is the operation
text followed by the original diagnostic text, which it therefore contains. -/
theorem auth_error_priority_c6 (opMsg e : String) :
    (strContains e "Unauthorized" = true →
        clientFacadeFail opMsg e
          = .authenticationError "Invalid or expired Todoist API token"
        ∧ ∀ m d, clientFacadeFail opMsg e ≠ .todoistError m d)
    ∧ (strContains e "Unauthorized" = false →
        clientFacadeFail opMsg e = .todoistError (opMsg ++ e) none
        ∧ strContains (opMsg ++ e) e = true) := by
  constructor
  · intro h
    refine ⟨by simp [clientFacadeFail, h], fun m d => by simp [clientFacadeFail, h]⟩
  · intro h
    exact ⟨by simp [clientFacadeFail, h], strContains_append_self opMsg e⟩

/-- C6, witness. -/
theorem auth_error_priority_c6_witness :
    clientFacadeFail "Failed to get tasks: " "HTTP 401 Unauthorized"
      = .authenticationError "Invalid or expired Todoist API token"
    ∧ clientFacadeFail "Failed to get tasks: " "connection reset"
      = .todoistError "Failed to get tasks: connection reset" none :=
  ⟨((auth_error_priority_c6 "Failed to get tasks: " "HTTP 401 Unauthorized").1
      (by decide)).1,
   ((auth_error_priority_c6 "Failed to get tasks: " "connection reset").2
      (by decide)).1⟩

/-- C7.  When both an identifier and a name are supplied for the same
reference, the resolution lookup is suppressed: list-tasks with project_id
and project_name, and label_id and label_name, issues neither get_projects
nor get_labels and passes both supplied identifiers to the remote list call
unchanged; create-task with project_id and project_name issues no
get_projects and passes the supplied identifier to the create call. -/
theorem identifier_precedence_c7 (c : Client) (a : ListTasksArgs)
    (ca : CreateTaskArgs) (pid lid cpid n m cn : String)
    (h1 : a.project_id = some pid) (h2 : pid ≠ "") (h3 : a.project_name = some n)
    (h4 : a.label_id = some lid) (h5 : lid ≠ "") (h6 : a.label_name = some m)
    (h7 : ca.project_id = some cpid) (h8 : cpid ≠ "")
    (h9 : ca.project_name = some cn) :
    (handleListTasks c a).1
      = [CallTag.getTasks (some pid) a.section_id (some lid)
          (composeFilter a.filter_string a.due_today a.due_upcoming a.priority)]
    ∧ CallTag.getProjects ∉ (handleListTasks c a).1
    ∧ CallTag.getLabels ∉ (handleListTasks c a).1
    ∧ (handleCreateTask c ca).1 = [CallTag.createTask ca.content (some cpid)]
    ∧ CallTag.getProjects ∉ (handleCreateTask c ca).1 := by
  have hlist : (handleListTasks c a).1
      = [CallTag.getTasks (some pid) a.section_id (some lid)
          (composeFilter a.filter_string a.due_today a.due_upcoming a.priority)] := by
    cases hT : c.getTasksR with
    | error eT =>
        simp [handleListTasks, h1, h3, h4, h6, hT,
          pyTruthyS_some h2, pyTruthyS_some h5]
    | ok ts =>
        simp [handleListTasks, h1, h3, h4, h6, hT,
          pyTruthyS_some h2, pyTruthyS_some h5]
  have hcreate : (handleCreateTask c ca).1
      = [CallTag.createTask ca.content (some cpid)] := by
    cases hC : c.createTaskR with
    | error eC => simp [handleCreateTask, h7, h9, hC, pyTruthyS_some h8]
    | ok t => simp [handleCreateTask, h7, h9, hC, pyTruthyS_some h8]
  refine ⟨hlist, ?_, ?_, hcreate, ?_⟩
  · rw [hlist]; simp
  · rw [hlist]; simp
  · rw [hcreate]; simp

/-- C7, witness. -/
theorem identifier_precedence_c7_witness :
    (handleListTasks {}
        { project_id := some "1", project_name := some "Work",
          label_id := some "2", label_name := some "urgent" }).1
      = [CallTag.getTasks (some "1") none (some "2")
          (composeFilter none false false none)]
    ∧ CallTag.getProjects ∉ (handleListTasks {}
        { project_id := some "1", project_name := some "Work",
          label_id := some "2", label_name := some "urgent" }).1
    ∧ CallTag.getLabels ∉ (handleListTasks {}
        { project_id := some "1", project_name := some "Work",
          label_id := some "2", label_name := some "urgent" }).1
    ∧ (handleCreateTask {}
        { content := "x", project_id := some "1", project_name := some "Work" }).1
      = [CallTag.createTask "x" (some "1")]
    ∧ CallTag.getProjects ∉ (handleCreateTask {}
        { content := "x", project_id := some "1", project_name := some "Work" }).1 :=
  identifier_precedence_c7 {}
    { project_id := some "1", project_name := some "Work",
      label_id := some "2", label_name := some "urgent" }
    { content := "x", project_id := some "1", project_name := some "Work" }
    "1" "2" "1" "Work" "urgent" "Work"
    rfl (by decide) rfl rfl (by decide) rfl rfl (by decide) rfl

/-- C8.  Required-field validation: complete-task and delete-task without
task_id, and update-label and delete-label with neither label_id nor
label_name, fail with ValidationError as claimed; update-task without
task_id, however, raises KeyError from the defaultless dict pop at
tasks.py 580, which is not a ValidationError. -/
theorem required_fields_c8 :
    handleUpdateTask {} {} = ([], .error (.keyError "task_id"))
    ∧ (PyExc.keyError "task_id").isValidationErr = false
    ∧ (handleCompleteTask {} {}).2 = .error (.validationError "Task ID is required")
    ∧ (handleDeleteTask {} {}).2 = .error (.validationError "Task ID is required")
    ∧ (handleUpdateLabel {} {}).2
      = .error (.validationError "Either label_id or label_name is required")
    ∧ (handleDeleteLabel {} {}).2
      = .error (.validationError "Either label_id or label_name is required") :=
  ⟨rfl, rfl, rfl, rfl, rfl, rfl⟩

/-- Oracle for C9. -/
def c9Client : Client := { createLabelR := .ok { id := "5", name := "x" } }

/-- C9.  A create-label invocation without the favorite argument passes
favorite = false to the remote create call (labels.py 271), while the tool
schema it is registered with declares the default as true (labels.py 91). -/
theorem create_label_favorite_default_c9 :
    handleCreateLabel c9Client { name := "x" }
      = ([CallTag.createLabel "x" none false], .ok { id := "5", name := "x" })
    ∧ createLabelSchemaFavoriteDefault = true
    ∧ (false : Bool) ≠ createLabelSchemaFavoriteDefault :=
  ⟨rfl, rfl, by decide⟩

/-- C10.  update-task always fetches the task before mutating: when that
pre-update fetch fails, the handler propagates exactly the fetch error, its
trace is the single get_task call, and no update call is ever issued. -/
theorem preupdate_fetch_failure_c10 (c : Client) (a : UpdateTaskArgs)
    (tid : String) (e : PyExc)
    (h1 : a.task_id = some tid) (h2 : tid ≠ "") (h3 : c.getTaskR 0 = .error e) :
    handleUpdateTask c a = ([CallTag.getTask tid], .error e)
    ∧ ∀ t p, CallTag.updateTask t p ∉ (handleUpdateTask c a).1 := by
  have h : handleUpdateTask c a = ([CallTag.getTask tid], .error e) := by
    simp [handleUpdateTask, h1, h2, h3]
  exact ⟨h, fun t p => by rw [h]; simp⟩

/-- Oracle for the C10 witness: the pre-update fetch fails. -/
def c10wClient : Client :=
  { getTaskR := fun _ => .error (.todoistError "Failed to get task: not found" none) }

/-- C10, witness. -/
theorem preupdate_fetch_failure_c10_witness :
    handleUpdateTask c10wClient { task_id := some "1" }
      = ([CallTag.getTask "1"],
         .error (.todoistError "Failed to get task: not found" none))
    ∧ ∀ t p, CallTag.updateTask t p
        ∉ (handleUpdateTask c10wClient { task_id := some "1" }).1 :=
  preupdate_fetch_failure_c10 c10wClient { task_id := some "1" } "1"
    (.todoistError "Failed to get task: not found" none) rfl (by decide) rfl

end TodoistMCP
